import Mathlib

/-!
Shallow embedding of the verification-code service of
Frost-bit-star/Email-verification-Saas.

The repository contains two express server modules implementing the same
verification-code flow with different constants and error handling:
  * module 000 (src/unnamed/part_000): 2-minute TTL, no field validation in
    the verify-code handler, fire-and-forget insert (no error callback),
    SMTP health probe with retry;
  * module 001 (src/unnamed/part_001): 5-minute TTL, field validation in
    both handlers, insert error callback, single-attempt SMTP health probe.

The SQLite table verification_codes is modelled as a list of records in
insertion (rowid) order; db.get on a SELECT returns the first matching row
(List.find?), db.run on the DELETE removes all matching rows (List.filter).
Request-body fields are Option String (none = absent in JSON), and JS
truthiness of a string field is "present and non-empty".  Failures of the
external collaborators (SQLite I/O, nodemailer sendMail / verify) are
nondeterministic inputs, passed as explicit Bool flags / oracles.
-/

set_option maxRecDepth 4096

namespace EmailVerification

/-- One row of the verification_codes table
(id, company, username, email, code, created_at). -/
structure VerificationRecord where
  id : Nat
  company : String
  username : String
  email : String
  code : String
  created_at : Int
deriving Repr, DecidableEq

/-- The verification_codes table, in rowid (insertion) order. -/
abbrev CodeStore := List VerificationRecord

/-- ASCII lowering of one character, as JavaScript
String.prototype.toLowerCase acts on the ASCII range. -/
def jsCharToLower (ch : Char) : Char :=
  if 65 ≤ ch.toNat ∧ ch.toNat ≤ 90 then Char.ofNat (ch.toNat + 32) else ch

/-- ASCII raising of one character, as JavaScript
String.prototype.toUpperCase acts on the ASCII range. -/
def jsCharToUpper (ch : Char) : Char :=
  if 97 ≤ ch.toNat ∧ ch.toNat ≤ 122 then Char.ofNat (ch.toNat - 32) else ch

/-- email.toLowerCase() (the inputs of interest are ASCII). -/
def jsToLower (s : String) : String := ⟨s.data.map jsCharToLower⟩

/-- s.toUpperCase() (the inputs of interest are ASCII). -/
def jsToUpper (s : String) : String := ⟨s.data.map jsCharToUpper⟩

/-- JS truthiness of a request-body string field: absent (undefined) and
the empty string are falsy. -/
def isTruthy : Option String → Bool
  | none => false
  | some s => !(s == "")

/-- Lower hex digit, as Buffer.prototype.toString with encoding hex
renders one nibble. -/
def hexDigit (n : Nat) : Char :=
  if n < 10 then Char.ofNat (48 + n) else Char.ofNat (87 + n)

/-- Two lower-hex characters of one byte. -/
def byteToHexChars (b : Nat) : List Char := [hexDigit (b / 16), hexDigit (b % 16)]

/-- crypto.randomBytes(3).toString(hex).toUpperCase(), with the three
random bytes passed explicitly: the generateCode function of both modules
(part_000 lines 46-48, part_001 lines 50-52). -/
def generateCode (bs : List Nat) : String :=
  jsToUpper ⟨(bs.map byteToHexChars).flatten⟩

/-- TTL of module 000: 2 minutes in milliseconds. -/
def ttlMs000 : Int := 2 * 60 * 1000

/-- TTL of module 001: 5 minutes in milliseconds. -/
def ttlMs001 : Int := 5 * 60 * 1000

/-- The WHERE clause of the verify-code SELECT:
email = ? AND code = ? AND created_at > ?. -/
def matchesValid (e c : String) (notBefore : Int) (r : VerificationRecord) : Bool :=
  r.email == e && (r.code == c && decide (notBefore < r.created_at))

/-- db.get of the verify-code SELECT: first row matching normalized email,
exact code, and created_at > notBefore. -/
def findValid (store : CodeStore) (e c : String) (notBefore : Int) :
    Option VerificationRecord :=
  store.find? (matchesValid e c notBefore)

/-- AUTOINCREMENT id for the next insert. -/
def nextId (store : CodeStore) : Nat :=
  store.foldr (fun r m => max r.id m) 0 + 1

/-- An HTTP JSON response: status code, optional valid flag, message. -/
structure HttpResponse where
  status : Nat
  valid : Option Bool
  message : String
deriving Repr, DecidableEq

/-- Outcome of a request-code call: the store afterwards, the response,
and whether transporter.sendMail was invoked. -/
structure IssueResult where
  store : CodeStore
  response : HttpResponse
  mailAttempted : Bool
deriving Repr, DecidableEq

/-- POST /request-code of module 000 (part_000 lines 57-95).  The insert
db.run has no callback there, so node-sqlite3 reports a failing INSERT by
an error event that has no listener: an uncaught exception that kills the
process before any response goes out, well before the SMTP round-trip
completes.  An insert failure therefore produces no HTTP response at all
(modelled as none); on a successful insert the flow continues to sendMail
as in module 001. -/
def requestCode000 (store : CodeStore) (company username email : Option String)
    (code : String) (now : Int) (insertFails mailFails : Bool) :
    Option IssueResult :=
  if isTruthy company && isTruthy username && isTruthy email then
    if insertFails then none
    else
      let normalizedEmail := jsToLower (email.getD "")
      let store' := store ++ [⟨nextId store, company.getD "", username.getD "",
        normalizedEmail, code, now⟩]
      if mailFails then some ⟨store', ⟨500, none, "Email failed to send."⟩, true⟩
      else some ⟨store', ⟨200, none, "Verification code sent."⟩, true⟩
  else some ⟨store, ⟨400, none, "Company, username, and email are required."⟩, false⟩

/-- POST /request-code of module 001 (part_001 lines 61-187): validation,
insert with error callback (500 on failure, nothing sent), then sendMail. -/
def requestCode001 (store : CodeStore) (company username email : Option String)
    (code : String) (now : Int) (insertFails mailFails : Bool) : IssueResult :=
  if isTruthy company && isTruthy username && isTruthy email then
    if insertFails then ⟨store, ⟨500, none, "Failed to store code."⟩, false⟩
    else
      let normalizedEmail := jsToLower (email.getD "")
      let store' := store ++ [⟨nextId store, company.getD "", username.getD "",
        normalizedEmail, code, now⟩]
      if mailFails then ⟨store', ⟨500, none, "Email failed to send."⟩, true⟩
      else ⟨store', ⟨200, none, "Verification code sent."⟩, true⟩
  else ⟨store, ⟨400, none, "Company, username, and email are required."⟩, false⟩

/-- POST /verify-code of module 001 (part_001 lines 190-216): validates
both fields, then a read-only SELECT; the store is returned unchanged. -/
def verifyCode001 (store : CodeStore) (email code : Option String) (now : Int)
    (dbErr : Bool) : CodeStore × HttpResponse :=
  if isTruthy email && isTruthy code then
    if dbErr then (store, ⟨500, some false, "Database error."⟩)
    else
      match findValid store (jsToLower (email.getD "")) (code.getD "")
          (now - ttlMs001) with
      | some _ => (store, ⟨200, some true, "✅ Code is valid!"⟩)
      | none => (store, ⟨400, some false, "❌ Invalid or expired code."⟩)
  else (store, ⟨400, some false, "Email and code are required."⟩)

/-- db.get of module 000's verify-code with a possibly absent code field:
a SQL comparison code = NULL matches no row. -/
def findValidOpt (store : CodeStore) (e : String) (code : Option String)
    (notBefore : Int) : Option VerificationRecord :=
  match code with
  | none => none
  | some c => findValid store e c notBefore

/-- POST /verify-code of module 000 (part_000 lines 98-118).  There is no
field validation: a missing email makes email.toLowerCase() throw a
TypeError, so the handler produces no JSON response (modelled as none and
surfaced by express as an unhandled 500); a missing code reaches the
SELECT as NULL and matches nothing. -/
def verifyCode000 (store : CodeStore) (email code : Option String) (now : Int)
    (dbErr : Bool) : Option (CodeStore × HttpResponse) :=
  match email with
  | none => none
  | some e =>
    if dbErr then some (store, ⟨500, some false, "Database error."⟩)
    else
      match findValidOpt store (jsToLower e) code (now - ttlMs000) with
      | some _ => some (store, ⟨200, some true, "Code is valid."⟩)
      | none => some (store, ⟨400, some false, "Invalid or expired code."⟩)

/-- db.run of the reaper's DELETE FROM verification_codes
WHERE created_at < cutoff. -/
def purgeOlderThan (store : CodeStore) (cutoff : Int) : CodeStore :=
  store.filter (fun r => !decide (r.created_at < cutoff))

/-- One tick of module 001's setInterval reaper (part_001 lines 55-58):
cutoff = now - TTL. -/
def reaperTick001 (store : CodeStore) (now : Int) : CodeStore :=
  purgeOlderThan store (now - ttlMs001)

/-- The callback-chained attempt loop inside verifySMTPWithRetry
(part_000 lines 121-132): outcomes k is the result of the k-th
transporter.verify call, n the remaining retries. -/
def attemptSMTP (outcomes : Nat → Bool) : Nat → Nat → String
  | k, n =>
    if outcomes k then "ok"
    else
      match n with
      | 0 => "error"
      | m + 1 => attemptSMTP outcomes (k + 1) m

/-- verifySMTPWithRetry(retries, delay) of part_000; the fixed delay has
no observable effect on the verdict and is not modelled. -/
def verifySMTPWithRetry (outcomes : Nat → Bool) (retries : Nat) : String :=
  attemptSMTP outcomes 0 retries

/-- The GET /health JSON of module 000 (part_000 lines 135-154). -/
structure HealthReport where
  httpStatus : Nat
  status : String
  http : String
  database : String
  smtp : String
  timestamp : String
deriving Repr, DecidableEq

/-- GET /health of module 000: single-attempt DB probe, SMTP probe with
retries = 3, overall ok only if both sub-probes are ok. -/
def healthCheck (dbOk : Bool) (outcomes : Nat → Bool) (ts : String) : HealthReport :=
  let dbStatus := if dbOk then "ok" else "error"
  let smtpStatus := verifySMTPWithRetry outcomes 3
  let allOk := dbStatus == "ok" && smtpStatus == "ok"
  ⟨if allOk then 200 else 500, if allOk then "ok" else "error",
    "ok", dbStatus, smtpStatus, ts⟩

/-! ## Helper lemmas -/

theorem matchesValid_iff (e c : String) (nb : Int) (r : VerificationRecord) :
    matchesValid e c nb r = true ↔
      r.email = e ∧ r.code = c ∧ nb < r.created_at := by
  simp [matchesValid]

theorem isTruthy_some_of_ne {s : String} (h : s ≠ "") :
    isTruthy (some s) = true := by
  simp [isTruthy, h]

theorem verify001_valid_iff (store : CodeStore) (e c : String) (now : Int)
    (he : e ≠ "") (hc : c ≠ "") :
    (verifyCode001 store (some e) (some c) now false).2 =
        ⟨200, some true, "✅ Code is valid!"⟩ ↔
      ∃ r ∈ store, r.email = jsToLower e ∧ r.code = c ∧
        now - ttlMs001 < r.created_at := by
  have htr : (isTruthy (some e) && isTruthy (some c)) = true := by
    simp [isTruthy_some_of_ne he, isTruthy_some_of_ne hc]
  rcases hf : findValid store (jsToLower e) c (now - ttlMs001) with _ | r
  · constructor
    · intro hresp
      simp [verifyCode001, htr, hf] at hresp
    · rintro ⟨r, hmem, hr⟩
      have : (findValid store (jsToLower e) c (now - ttlMs001)).isSome = true := by
        simp [findValid, List.find?_isSome]
        exact ⟨r, hmem, (matchesValid_iff _ _ _ _).2 hr⟩
      rw [hf] at this
      simp at this
  · constructor
    · intro _
      exact ⟨r, List.mem_of_find?_eq_some hf,
        (matchesValid_iff _ _ _ _).1 (List.find?_some hf)⟩
    · intro _
      simp [verifyCode001, htr, hf]

theorem verify001_result (store : CodeStore) (e c : String) (now : Int)
    (he : e ≠ "") (hc : c ≠ "") :
    (verifyCode001 store (some e) (some c) now false).2 =
        ⟨200, some true, "✅ Code is valid!"⟩ ∨
      (verifyCode001 store (some e) (some c) now false).2 =
        ⟨400, some false, "❌ Invalid or expired code."⟩ := by
  have htr : (isTruthy (some e) && isTruthy (some c)) = true := by
    simp [isTruthy_some_of_ne he, isTruthy_some_of_ne hc]
  rcases hf : findValid store (jsToLower e) c (now - ttlMs001) with _ | r
  · right; simp [verifyCode001, htr, hf]
  · left; simp [verifyCode001, htr, hf]

theorem verify001_store_frame (store : CodeStore) (email code : Option String)
    (now : Int) (dbErr : Bool) :
    (verifyCode001 store email code now dbErr).1 = store := by
  unfold verifyCode001
  rcases findValid store (jsToLower (email.getD "")) (code.getD "") (now - ttlMs001) with _ | r <;>
    rcases dbErr <;> rcases isTruthy email && isTruthy code <;> simp

/-! ## C1 -/

/-- C1: with both fields supplied and the store reachable, module 001's
redemption returns the Valid response (HTTP 200, valid = true) exactly
when some record's stored email equals the request email lowercased, its
code equals the request code exactly, and created_at > now - TTL;
otherwise it returns the Invalid response (HTTP 400, valid = false). -/
theorem redeem_valid_iff_match (store : CodeStore) (e c : String) (now : Int)
    (he : e ≠ "") (hc : c ≠ "") :
    ((verifyCode001 store (some e) (some c) now false).2 =
        ⟨200, some true, "✅ Code is valid!"⟩ ↔
      ∃ r ∈ store, r.email = jsToLower e ∧ r.code = c ∧
        now - ttlMs001 < r.created_at) ∧
    ((verifyCode001 store (some e) (some c) now false).2 =
        ⟨400, some false, "❌ Invalid or expired code."⟩ ↔
      ¬ ∃ r ∈ store, r.email = jsToLower e ∧ r.code = c ∧
        now - ttlMs001 < r.created_at) := by
  refine ⟨verify001_valid_iff store e c now he hc, ?_⟩
  rcases verify001_result store e c now he hc with hres | hres
  · have hex := (verify001_valid_iff store e c now he hc).1 hres
    rw [hres]
    constructor
    · intro hbad
      exact absurd (congrArg HttpResponse.status hbad) (by decide)
    · intro hbad
      exact absurd hex hbad
  · rw [hres]
    constructor
    · intro _ hex
      have := (verify001_valid_iff store e c now he hc).2 hex
      rw [hres] at this
      exact absurd (congrArg HttpResponse.status this) (by decide)
    · intro _
      rfl

/-- C1 witness: a store holding (alice@example.com, ABC123, t=1000) makes
redemption with email Alice@Example.com and code ABC123 at t=2000 Valid. -/
theorem redeem_valid_iff_match_witness :
    (verifyCode001 [⟨1, "Acme", "alice", "alice@example.com", "ABC123", 1000⟩]
        (some "Alice@Example.com") (some "ABC123") 2000 false).2 =
      ⟨200, some true, "✅ Code is valid!"⟩ :=
  (redeem_valid_iff_match
      [⟨1, "Acme", "alice", "alice@example.com", "ABC123", 1000⟩]
      "Alice@Example.com" "ABC123" 2000 (by decide) (by decide)).1.mpr
    ⟨⟨1, "Acme", "alice", "alice@example.com", "ABC123", 1000⟩,
      by simp, by decide, rfl, by decide⟩

/-! ## C2 -/

/-- n consecutive redemptions of the same pair, chaining the store each
handler hands back. -/
def redeemIter (n : Nat) (store : CodeStore) (email code : Option String)
    (now : Int) : CodeStore :=
  match n with
  | 0 => store
  | m + 1 => redeemIter m (verifyCode001 store email code now false).1 email code now

theorem redeemIter_eq (n : Nat) (store : CodeStore) (email code : Option String)
    (now : Int) : redeemIter n store email code now = store := by
  induction n generalizing store with
  | zero => rfl
  | succ m ih =>
    show redeemIter m (verifyCode001 store email code now false).1 email code now = store
    rw [verify001_store_frame, ih]

/-- C2: redemption is read-only — the store after a verify-code call is
the store before it — so as long as a matching record is within its TTL at
time t2, redeeming the same (email, code) pair any number of times (here:
after n further redemptions at time t1) still returns Valid at t2. -/
theorem redeem_no_consume_replay (store : CodeStore) (e c : String)
    (t1 t2 : Int) (n : Nat) (he : e ≠ "") (hc : c ≠ "")
    (hr : ∃ r ∈ store, r.email = jsToLower e ∧ r.code = c ∧
      t2 - ttlMs001 < r.created_at) :
    (verifyCode001 store (some e) (some c) t1 false).1 = store ∧
    redeemIter n store (some e) (some c) t1 = store ∧
    (verifyCode001 (redeemIter n store (some e) (some c) t1)
        (some e) (some c) t2 false).2 =
      ⟨200, some true, "✅ Code is valid!"⟩ := by
  refine ⟨verify001_store_frame _ _ _ _ _, redeemIter_eq _ _ _ _ _, ?_⟩
  rw [redeemIter_eq]
  exact (verify001_valid_iff store e c t2 he hc).2 hr

/-- C2 witness: the pair stays redeemable at t2 = 2000 after 5 earlier
redemptions at t1 = 1500. -/
theorem redeem_no_consume_replay_witness :
    redeemIter 5 [⟨1, "Acme", "alice", "a@b.c", "ABC123", 1000⟩]
        (some "a@b.c") (some "ABC123") 1500 =
      [⟨1, "Acme", "alice", "a@b.c", "ABC123", 1000⟩] ∧
    (verifyCode001 (redeemIter 5 [⟨1, "Acme", "alice", "a@b.c", "ABC123", 1000⟩]
          (some "a@b.c") (some "ABC123") 1500)
        (some "a@b.c") (some "ABC123") 2000 false).2 =
      ⟨200, some true, "✅ Code is valid!"⟩ :=
  let h := redeem_no_consume_replay
    [⟨1, "Acme", "alice", "a@b.c", "ABC123", 1000⟩] "a@b.c" "ABC123" 1500 2000 5
    (by decide) (by decide)
    ⟨⟨1, "Acme", "alice", "a@b.c", "ABC123", 1000⟩, by simp, by decide, rfl, by decide⟩
  ⟨h.2.1, h.2.2⟩

/-! ## C5 -/

/-- C5: one reaper tick of module 001 deletes exactly the records with
created_at < now - TTL: a record survives iff it was present and not older
than the cutoff, survivors keep their order (sublist), and a second sweep
with the same cutoff removes nothing further. -/
theorem reaper_tick_exact (store : CodeStore) (now : Int) :
    (∀ r : VerificationRecord,
      r ∈ reaperTick001 store now ↔ r ∈ store ∧ ¬ r.created_at < now - ttlMs001) ∧
    (reaperTick001 store now).Sublist store ∧
    reaperTick001 (reaperTick001 store now) now = reaperTick001 store now := by
  refine ⟨fun r => ?_, List.filter_sublist store, ?_⟩
  · simp [reaperTick001, purgeOlderThan, List.mem_filter]
  · simp [reaperTick001, purgeOlderThan, List.filter_filter]

/-! ## C4 -/

/-- C4: in module 001, when the insert succeeds and sendMail then fails,
the caller gets the delivery-failure 500, yet the freshly inserted record
stays in the store, and redeeming that email and code at any time t2
within the TTL returns Valid. -/
theorem delivery_failure_keeps_record
    (store : CodeStore) (company username e code : String) (t1 t2 : Int)
    (hco : company ≠ "") (hu : username ≠ "") (he : e ≠ "") (hcode : code ≠ "")
    (hfresh : t2 - ttlMs001 < t1) :
    (requestCode001 store (some company) (some username) (some e)
        code t1 false true).response = ⟨500, none, "Email failed to send."⟩ ∧
    (requestCode001 store (some company) (some username) (some e)
        code t1 false true).store =
      store ++ [⟨nextId store, company, username, jsToLower e, code, t1⟩] ∧
    (verifyCode001 (requestCode001 store (some company) (some username) (some e)
          code t1 false true).store (some e) (some code) t2 false).2 =
      ⟨200, some true, "✅ Code is valid!"⟩ := by
  have hst : (requestCode001 store (some company) (some username) (some e)
      code t1 false true).store =
      store ++ [⟨nextId store, company, username, jsToLower e, code, t1⟩] := by
    simp [requestCode001, isTruthy_some_of_ne hco, isTruthy_some_of_ne hu,
      isTruthy_some_of_ne he]
  refine ⟨?_, hst, ?_⟩
  · simp [requestCode001, isTruthy_some_of_ne hco, isTruthy_some_of_ne hu,
      isTruthy_some_of_ne he]
  · rw [hst]
    exact (verify001_valid_iff _ e code t2 he hcode).2
      ⟨⟨nextId store, company, username, jsToLower e, code, t1⟩,
        List.mem_append_right _ (List.mem_singleton.2 rfl), rfl, rfl, hfresh⟩

/-- C4 witness: issuance at t1 = 0 with a failing mailer still leaves
(a@b.c, FF00AA) redeemable at t2 = 1000. -/
theorem delivery_failure_keeps_record_witness :
    (requestCode001 [] (some "Acme") (some "bob") (some "A@B.c")
        "FF00AA" 0 false true).response = ⟨500, none, "Email failed to send."⟩ ∧
    (verifyCode001 (requestCode001 [] (some "Acme") (some "bob") (some "A@B.c")
          "FF00AA" 0 false true).store (some "A@B.c") (some "FF00AA") 1000 false).2 =
      ⟨200, some true, "✅ Code is valid!"⟩ :=
  let h := delivery_failure_keeps_record [] "Acme" "bob" "A@B.c" "FF00AA" 0 1000
    (by decide) (by decide) (by decide) (by decide) (by decide)
  ⟨h.1, h.2.2⟩

/-! ## C10 -/

/-- C10: the request-code response of both modules is a function of the
validation verdict and the failure flags only — two runs that differ only
in the generated code value produce identical observable responses (for
module 000 including the no-response crash path, where both runs send
nothing), so the code value is never disclosed over HTTP. -/
theorem issue_response_independent_of_code
    (store : CodeStore) (company username email : Option String)
    (code1 code2 : String) (now : Int) (insertFails mailFails : Bool) :
    (requestCode001 store company username email code1 now insertFails
        mailFails).response =
      (requestCode001 store company username email code2 now insertFails
        mailFails).response ∧
    (requestCode000 store company username email code1 now insertFails
        mailFails).map IssueResult.response =
      (requestCode000 store company username email code2 now insertFails
        mailFails).map IssueResult.response := by
  cases h : isTruthy company && isTruthy username && isTruthy email <;>
    cases insertFails <;> cases mailFails <;>
      simp [requestCode001, requestCode000, h]

/-! ## C8 -/

/-- Uppercase hexadecimal alphabet 0-9, A-F. -/
def isUpperHexChar (ch : Char) : Bool :=
  (48 ≤ ch.toNat && ch.toNat ≤ 57) || (65 ≤ ch.toNat && ch.toNat ≤ 70)

theorem hex_nibble_ok (d : Nat) (h : d < 16) :
    isUpperHexChar (jsCharToUpper (hexDigit d)) = true := by
  interval_cases d <;> decide

theorem generateCode_spec (b0 b1 b2 : Nat)
    (h0 : b0 < 256) (h1 : b1 < 256) (h2 : b2 < 256) :
    (generateCode [b0, b1, b2]).length = 6 ∧
    ∀ ch ∈ (generateCode [b0, b1, b2]).data, isUpperHexChar ch = true := by
  constructor
  · simp [generateCode, jsToUpper, byteToHexChars, String.length]
  · intro ch hch
    simp [generateCode, jsToUpper, byteToHexChars] at hch
    have hdiv0 : b0 / 16 < 16 := Nat.div_lt_of_lt_mul (by omega)
    have hdiv1 : b1 / 16 < 16 := Nat.div_lt_of_lt_mul (by omega)
    have hdiv2 : b2 / 16 < 16 := Nat.div_lt_of_lt_mul (by omega)
    have hm0 : b0 % 16 < 16 := Nat.mod_lt _ (by norm_num)
    have hm1 : b1 % 16 < 16 := Nat.mod_lt _ (by norm_num)
    have hm2 : b2 % 16 < 16 := Nat.mod_lt _ (by norm_num)
    rcases hch with h | h | h | h | h | h <;> rw [h]
    exacts [hex_nibble_ok _ hdiv0, hex_nibble_ok _ hm0, hex_nibble_ok _ hdiv1,
      hex_nibble_ok _ hm1, hex_nibble_ok _ hdiv2, hex_nibble_ok _ hm2]

/-- C8: a valid issuance in module 001 appends exactly one record whose
email is the input email lowercased and whose code is generateCode's
output: a 6-character string over the uppercase hexadecimal alphabet. -/
theorem issue_persists_lower_email_hex_code
    (store : CodeStore) (company username e : String) (b0 b1 b2 : Nat)
    (now : Int) (mailFails : Bool)
    (hco : company ≠ "") (hu : username ≠ "") (he : e ≠ "")
    (h0 : b0 < 256) (h1 : b1 < 256) (h2 : b2 < 256) :
    (requestCode001 store (some company) (some username) (some e)
        (generateCode [b0, b1, b2]) now false mailFails).store =
      store ++ [⟨nextId store, company, username, jsToLower e,
        generateCode [b0, b1, b2], now⟩] ∧
    (generateCode [b0, b1, b2]).length = 6 ∧
    ∀ ch ∈ (generateCode [b0, b1, b2]).data, isUpperHexChar ch = true := by
  refine ⟨?_, generateCode_spec b0 b1 b2 h0 h1 h2⟩
  cases mailFails <;>
    simp [requestCode001, isTruthy_some_of_ne hco, isTruthy_some_of_ne hu,
      isTruthy_some_of_ne he]

/-- C8 witness: issuing for Bob@X.Com with random bytes (0, 171, 255)
stores email bob@x.com and code 00ABFF. -/
theorem issue_persists_lower_email_hex_code_witness :
    (requestCode001 [] (some "Acme") (some "bob") (some "Bob@X.Com")
        (generateCode [0, 171, 255]) 7 false false).store =
      [⟨1, "Acme", "bob", "bob@x.com", "00ABFF", 7⟩] ∧
    generateCode [0, 171, 255] = "00ABFF" :=
  ⟨by
    rw [(issue_persists_lower_email_hex_code [] "Acme" "bob" "Bob@X.Com"
      0 171 255 7 false (by decide) (by decide) (by decide)
      (by decide) (by decide) (by decide)).1]
    decide,
  by decide⟩

/-! ## C9 -/

/-- C9: any two redemption requests of module 001 whose lookup finds no
matching non-expired record — wrong code, unknown email, or an expired
record — receive byte-identical responses: HTTP 400, valid = false, the
one generic message.  (Module 000's handler has the same single failure
branch with its own constant message.) -/
theorem failed_redeem_uniform
    (s1 s2 : CodeStore) (e1 c1 e2 c2 : String) (t1 t2 : Int)
    (he1 : e1 ≠ "") (hc1 : c1 ≠ "") (he2 : e2 ≠ "") (hc2 : c2 ≠ "")
    (h1 : findValid s1 (jsToLower e1) c1 (t1 - ttlMs001) = none)
    (h2 : findValid s2 (jsToLower e2) c2 (t2 - ttlMs001) = none) :
    (verifyCode001 s1 (some e1) (some c1) t1 false).2 =
      (verifyCode001 s2 (some e2) (some c2) t2 false).2 ∧
    (verifyCode001 s1 (some e1) (some c1) t1 false).2 =
      ⟨400, some false, "❌ Invalid or expired code."⟩ := by
  have r1 : (verifyCode001 s1 (some e1) (some c1) t1 false).2 =
      ⟨400, some false, "❌ Invalid or expired code."⟩ := by
    simp [verifyCode001, isTruthy_some_of_ne he1, isTruthy_some_of_ne hc1, h1]
  have r2 : (verifyCode001 s2 (some e2) (some c2) t2 false).2 =
      ⟨400, some false, "❌ Invalid or expired code."⟩ := by
    simp [verifyCode001, isTruthy_some_of_ne he2, isTruthy_some_of_ne hc2, h2]
  exact ⟨r1.trans r2.symm, r1⟩

/-- C9 witness: a never-issued pair on an empty store and an expired
record (created_at = 0 queried at t = 1000000) yield the same response. -/
theorem failed_redeem_uniform_witness :
    (verifyCode001 [] (some "a@b.c") (some "X") 50 false).2 =
      (verifyCode001 [⟨1, "Acme", "alice", "a@b.c", "ABC123", 0⟩]
        (some "a@b.c") (some "ABC123") 1000000 false).2 ∧
    (verifyCode001 [] (some "a@b.c") (some "X") 50 false).2 =
      ⟨400, some false, "❌ Invalid or expired code."⟩ :=
  failed_redeem_uniform [] [⟨1, "Acme", "alice", "a@b.c", "ABC123", 0⟩]
    "a@b.c" "X" "a@b.c" "ABC123" 50 1000000
    (by decide) (by decide) (by decide) (by decide) (by decide) (by decide)

/-! ## C6 -/

theorem attemptSMTP_ok_iff (outcomes : Nat → Bool) (n k : Nat) :
    attemptSMTP outcomes k n = "ok" ↔
      ∃ j, j ≤ n ∧ outcomes (k + j) = true := by
  induction n generalizing k with
  | zero =>
    rw [attemptSMTP]
    cases h : outcomes k with
    | true =>
      simp only [if_pos rfl]
      exact ⟨fun _ => ⟨0, Nat.le_refl 0, h⟩, fun _ => rfl⟩
    | false =>
      simp only [Bool.false_eq_true, if_false]
      constructor
      · intro hbad
        exact absurd hbad (by decide)
      · rintro ⟨j, hj, hout⟩
        interval_cases j
        rw [Nat.add_zero] at hout
        rw [h] at hout
        exact absurd hout (by decide)
  | succ m ih =>
    rw [attemptSMTP]
    cases h : outcomes k with
    | true =>
      simp only [if_pos rfl]
      exact ⟨fun _ => ⟨0, Nat.zero_le _, h⟩, fun _ => rfl⟩
    | false =>
      simp only [Bool.false_eq_true, if_false]
      rw [ih (k + 1)]
      constructor
      · rintro ⟨j, hj, hout⟩
        exact ⟨j + 1, by omega, by rw [show k + (j + 1) = k + 1 + j by omega]; exact hout⟩
      · rintro ⟨j, hj, hout⟩
        match j with
        | 0 =>
          rw [Nat.add_zero, h] at hout
          exact absurd hout (by decide)
        | i + 1 =>
          exact ⟨i, by omega, by rw [show k + 1 + i = k + (i + 1) by omega]; exact hout⟩

theorem attemptSMTP_result (outcomes : Nat → Bool) (n k : Nat) :
    attemptSMTP outcomes k n = "ok" ∨ attemptSMTP outcomes k n = "error" := by
  induction n generalizing k with
  | zero =>
    rw [attemptSMTP]
    cases outcomes k <;> simp
  | succ m ih =>
    rw [attemptSMTP]
    cases outcomes k with
    | true => left; simp
    | false => simpa using ih (k + 1)

/-- C6: module 000's health endpoint answers status ok with HTTP 200
exactly when the single-attempt DB probe succeeds and some
transporter.verify call within the retry budget (retries = 3, so calls
0..3, the first success short-circuiting the rest) succeeds; otherwise it
answers status error with HTTP 500, and the failing component is the one
marked error in the report. -/
theorem health_ok_iff (dbOk : Bool) (outcomes : Nat → Bool) (ts : String) :
    ((healthCheck dbOk outcomes ts).status = "ok" ∧
        (healthCheck dbOk outcomes ts).httpStatus = 200 ∨
      (healthCheck dbOk outcomes ts).status = "error" ∧
        (healthCheck dbOk outcomes ts).httpStatus = 500) ∧
    ((healthCheck dbOk outcomes ts).status = "ok" ↔
      dbOk = true ∧ ∃ j, j ≤ 3 ∧ outcomes j = true) ∧
    ((healthCheck dbOk outcomes ts).database = "error" ↔ dbOk = false) ∧
    ((healthCheck dbOk outcomes ts).smtp = "error" ↔
      ¬ ∃ j, j ≤ 3 ∧ outcomes j = true) ∧
    (healthCheck dbOk outcomes ts).timestamp = ts := by
  have hiff : attemptSMTP outcomes 0 3 = "ok" ↔
      ∃ j, j ≤ 3 ∧ outcomes j = true := by
    rw [attemptSMTP_ok_iff]
    simp
  rcases attemptSMTP_result outcomes 3 0 with hs | hs
  · have hex := hiff.1 hs
    cases dbOk <;> simp [healthCheck, verifySMTPWithRetry, hs] <;> exact hex
  · have hnot : ¬ ∃ j, j ≤ 3 ∧ outcomes j = true := fun hex => by
      have h2 := hiff.2 hex
      rw [hs] at h2
      exact absurd h2 (by decide)
    cases dbOk <;> simp [healthCheck, verifySMTPWithRetry, hs] <;>
      · intro x hx
        cases h : outcomes x with
        | false => rfl
        | true => exact absurd ⟨x, hx, h⟩ hnot

/-! ## C3 -/

/-- C3 counterexample: in module 000 a verify-code request lacking the
email field does not get the claimed 400 ValidationError — the handler
throws a TypeError on email.toLowerCase() before any response is built
(modelled as none, surfaced by express as an unhandled 500). -/
theorem missing_email_no_validation_000 :
    verifyCode000 [] none (some "ABC123") 0 false = none := rfl

/-- C3 amended: issuance validates its three fields in both modules, and
module 001's redemption validates its two — each such failure is a 400
with the field-requirement message, the store untouched, no mail
attempted.  Module 000's redemption does not validate: a missing code
falls through to the SELECT (NULL matches nothing) and gets the generic
invalid-code 400, while a missing email crashes the handler (none). -/
theorem missing_field_validation :
    (∀ (store : CodeStore) (c u e : Option String) (code : String) (now : Int)
        (iF mF : Bool), (isTruthy c && isTruthy u && isTruthy e) = false →
      requestCode001 store c u e code now iF mF =
        ⟨store, ⟨400, none, "Company, username, and email are required."⟩, false⟩) ∧
    (∀ (store : CodeStore) (c u e : Option String) (code : String) (now : Int)
        (iF mF : Bool), (isTruthy c && isTruthy u && isTruthy e) = false →
      requestCode000 store c u e code now iF mF =
        some ⟨store, ⟨400, none, "Company, username, and email are required."⟩,
          false⟩) ∧
    (∀ (store : CodeStore) (e code : Option String) (now : Int) (d : Bool),
        (isTruthy e && isTruthy code) = false →
      verifyCode001 store e code now d =
        (store, ⟨400, some false, "Email and code are required."⟩)) ∧
    (∀ (store : CodeStore) (e : String) (now : Int),
      verifyCode000 store (some e) none now false =
        some (store, ⟨400, some false, "Invalid or expired code."⟩)) ∧
    (∀ (store : CodeStore) (code : Option String) (now : Int) (d : Bool),
      verifyCode000 store none code now d = none) := by
  refine ⟨?_, ?_, ?_, ?_, ?_⟩
  · intro store c u e code now iF mF h
    simp [requestCode001, h]
  · intro store c u e code now iF mF h
    simp [requestCode000, h]
  · intro store e code now d h
    simp [verifyCode001, h]
  · intro store e now
    simp [verifyCode000, findValidOpt]
  · intro store code now d
    rfl

/-- C3 witness: concrete rejected requests — issuance without a company,
redemption without a code — both 400, store unchanged, no mail. -/
theorem missing_field_validation_witness :
    requestCode001 [] none (some "bob") (some "a@b.c") "ABC123" 0 false false =
      ⟨[], ⟨400, none, "Company, username, and email are required."⟩, false⟩ ∧
    verifyCode001 [] (some "a@b.c") none 0 false =
      ([], ⟨400, some false, "Email and code are required."⟩) :=
  ⟨missing_field_validation.1 [] none (some "bob") (some "a@b.c") "ABC123"
      0 false false (by decide),
    missing_field_validation.2.2.1 [] (some "a@b.c") none 0 false (by decide)⟩

/-! ## C7 -/

/-- C7 counterexample: in module 000 the insert db.run has no error
callback, so a failing insert raises an unhandled error event that kills
the process before any response is sent — the caller receives no HTTP
response at all (none), not the claimed StorageError 500. -/
theorem insert_failure_no_response_000 :
    requestCode000 [] (some "Acme") (some "bob") (some "a@b.c") "ABC123"
        0 true false = none := rfl

/-- C7 amended: in module 001 a failing insert yields HTTP 500 with the
generic storage message, nothing is stored and no mail is attempted; in
module 000 the no-callback insert's failure crashes the process before
any response is sent, so the caller receives no response at all. -/
theorem insert_failure_behavior :
    (∀ (store : CodeStore) (c u e : Option String) (code : String) (now : Int)
        (mF : Bool), (isTruthy c && isTruthy u && isTruthy e) = true →
      requestCode001 store c u e code now true mF =
        ⟨store, ⟨500, none, "Failed to store code."⟩, false⟩) ∧
    (∀ (store : CodeStore) (c u e : Option String) (code : String) (now : Int)
        (mF : Bool), (isTruthy c && isTruthy u && isTruthy e) = true →
      requestCode000 store c u e code now true mF = none) := by
  constructor
  · intro store c u e code now mF h
    simp [requestCode001, h]
  · intro store c u e code now mF h
    simp [requestCode000, h]

/-- C7 witness: a concrete failing insert — 500 storage error in module
001, a crash with no response in module 000. -/
theorem insert_failure_behavior_witness :
    requestCode001 [] (some "Acme") (some "bob") (some "a@b.c") "ABC123"
        0 true false =
      ⟨[], ⟨500, none, "Failed to store code."⟩, false⟩ ∧
    requestCode000 [] (some "Acme") (some "bob") (some "a@b.c") "ABC123"
        0 true true = none :=
  ⟨insert_failure_behavior.1 [] (some "Acme") (some "bob") (some "a@b.c")
      "ABC123" 0 false (by decide),
    insert_failure_behavior.2 [] (some "Acme") (some "bob") (some "a@b.c")
      "ABC123" 0 true (by decide)⟩

end EmailVerification
